import Mathlib

/-!
Verification development for the opioid/sedative dispensing tracker, a
two-stage pipeline: a batch cleaning script (`clean_data.py`) and a
dashboard (`app.py`).  The definitions below are a shallow embedding of
the row-wise data operations of both stages: records are structures,
dataframes are lists of records, numeric data is `ℚ`, and the fixed
regular-expression patterns of the cleaning stage are implemented as
executable matchers on character lists.
-/

/-
The rational operations of Batteries are `@[irreducible]`, which blocks
kernel evaluation of the concrete scenario computations by `decide`;
restore their reducibility (the definitions themselves are unchanged).
-/
set_option allowUnsafeReducibility true in
attribute [semireducible] Rat.add Rat.sub Rat.mul Rat.inv Rat.ofScientific

/-! ## Text patterns (the `us_patterns` list and the validation regex) -/

/-- Characters matched by the regex class `\s` (ASCII whitespace). -/
def wsChar (c : Char) : Bool :=
  c == ' ' || c == '\t' || c == '\n' || c == '\r' ||
    c == Char.ofNat 11 || c == Char.ofNat 12

/-- ASCII lower-casing of one character; models the effect of Python's
`re.IGNORECASE` flag (all pattern literals are lowercase ASCII). -/
def lowerChar (c : Char) : Char :=
  if c.toNat >= 65 && c.toNat <= 90 then Char.ofNat (c.toNat + 32) else c

/-- Lower-cased character list of a string. -/
def toLowerL (s : String) : List Char :=
  s.toList.map lowerChar

/-- Substring containment: `containsL l sub` holds when `sub` occurs
contiguously inside `l`; models `re.search` of a literal pattern. -/
def containsL (l sub : List Char) : Bool :=
  l.tails.any (fun t => sub.isPrefixOf t)

/-- Matcher for the regex `united\s+states` anchored at the start of `l`:
the literal `united`, then one or more whitespace characters, then the
literal `states`. -/
def matchUnitedStatesAt (l : List Char) : Bool :=
  "united".toList.isPrefixOf l &&
    !((l.drop 6).takeWhile wsChar).isEmpty &&
    "states".toList.isPrefixOf ((l.drop 6).dropWhile wsChar)

/-- Unanchored search for `united\s+states` (regex from `clean_data.py`
line 25), on an already lower-cased character list. -/
def matchUnitedStates (l : List Char) : Bool :=
  l.tails.any matchUnitedStatesAt

/-- Matcher for the regex `\s*u\s*s\s*` anchored at a `u`: a `u`, then
zero or more whitespace characters, then an `s`.  The leading and
trailing `\s*` of the pattern are vacuous under unanchored search. -/
def matchSpacedUSAt (l : List Char) : Bool :=
  match l with
  | 'u' :: rest => "s".toList.isPrefixOf (rest.dropWhile wsChar)
  | _ => false

/-- Unanchored search for `\s*u\s*s\s*` (regex from `clean_data.py`
line 30), on an already lower-cased character list. -/
def matchSpacedUS (l : List Char) : Bool :=
  l.tails.any matchSpacedUSAt

/-- Disjunction of the six `us_patterns` of `clean_data.py` lines 24-31,
searched case-insensitively (modelled by lower-casing the input): the row
is dropped by the mask of lines 34-39 exactly when this returns true. -/
def usPatternsMatch (st : String) : Bool :=
  let s := toLowerL st
  matchUnitedStates s || containsL s "us".toList || containsL s "u.s.".toList ||
    containsL s "usa".toList || containsL s "america".toList || matchSpacedUS s

/-- The post-hoc validation regex of `clean_data.py` lines 54-58:
`united\s+states|us|u\.s\.|usa|america`, case-insensitive. -/
def matchValidation (st : String) : Bool :=
  let s := toLowerL st
  matchUnitedStates s || containsL s "us".toList || containsL s "u.s.".toList ||
    containsL s "usa".toList || containsL s "america".toList

/-! ## Numeric coercion (`pd.to_numeric(..., errors="coerce")`) -/

/-- Accumulate the value of a digit run; fails on a non-digit. -/
def digitsValAux : List Char → ℕ → Option ℕ
  | [], acc => some acc
  | c :: rest, acc =>
      if c.isDigit then digitsValAux rest (acc * 10 + (c.toNat - 48)) else none

/-- Parse an unsigned decimal literal `digits[.digits]` with at least one
digit overall. -/
def parseUnsigned (l : List Char) : Option ℚ :=
  let intPart := l.takeWhile Char.isDigit
  let rest := l.dropWhile Char.isDigit
  match rest with
  | [] =>
      if intPart.isEmpty then none
      else (digitsValAux intPart 0).map (fun n => (n : ℚ))
  | '.' :: frac =>
      if frac.all Char.isDigit && (!intPart.isEmpty || !frac.isEmpty) then
        match digitsValAux intPart 0, digitsValAux frac 0 with
        | some i, some f => some ((i : ℚ) + (f : ℚ) / (10 : ℚ) ^ frac.length)
        | _, _ => none
      else none
  | _ => none

/-- Modelled numeric coercion: `pd.to_numeric(x, errors="coerce")` on a
string cell, for plain decimal literals with an optional sign; returns
`none` (the NaN that the subsequent `dropna` removes) when the text is
not numeric. -/
def parseNumeric (s : String) : Option ℚ :=
  match s.toList with
  | '-' :: rest => (parseUnsigned rest).map (fun q => -q)
  | '+' :: rest => parseUnsigned rest
  | l => parseUnsigned l

/-! ## Cleaning stage (`clean_data.py`) -/

/-- A raw input row after the rename/select of lines 8-17: five fields,
any of which may be missing (`None`/NaN in the CSV). -/
structure RawRecord where
  state : Option String
  year : Option Int
  month : Option String
  drug_type : Option String
  deaths : Option String
deriving DecidableEq, Repr

/-- A row of the cleaned output frame.  `deaths` is the untouched text of
the original `deaths` column; `deathsCoerced` is the value of the column
named `" deaths"` (with a leading space) created by line 50. -/
structure CleanedRecord where
  state : String
  year : Int
  month : String
  drug_type : String
  deaths : String
  deathsCoerced : ℚ
deriving DecidableEq, Repr

/-- Row-wise cleaning pipeline of `clean_data.py` lines 19-51, in source
order: drop rows with a missing field (line 20), drop rows whose state
matches any `us_patterns` entry (lines 34-39), drop the summary indicator
`number of deaths` (lines 42-44), keep only drug types containing
`opioid` case-insensitively (line 47), coerce `deaths` into the new
column `" deaths"` and drop rows where coercion fails (lines 50-51). -/
def cleanRow (raw : RawRecord) : Option CleanedRecord :=
  match raw.state, raw.year, raw.month, raw.drug_type, raw.deaths with
  | some st, some yr, some mo, some dt, some de =>
      if usPatternsMatch st then none
      else if toLowerL dt == "number of deaths".toList then none
      else if !(containsL (toLowerL dt) "opioid".toList) then none
      else
        match parseNumeric de with
        | some q => some ⟨st, yr, mo, dt, de, q⟩
        | none => none
  | _, _, _, _, _ => none

/-- The cleaned record set written at line 67, as a function of the raw
rows (every step of the script is row-wise). -/
def cleanOutput (raws : List RawRecord) : List CleanedRecord :=
  raws.filterMap cleanRow

/-- Column names kept by the selection at line 17. -/
def selectedColumns : List String :=
  ["state", "year", "month", "drug_type", "deaths"]

/-- Pandas column assignment `df[c] = ...`: overwrites `c` when present,
otherwise appends a new column named `c`. -/
def assignColumn (cols : List String) (c : String) : List String :=
  if cols.contains c then cols else cols ++ [c]

/-- Columns of the frame written by `df.to_csv` at line 67: line 50
assigns to the column named `" deaths"` (note the leading space). -/
def cleanedColumns : List String :=
  assignColumn selectedColumns " deaths"

/-! ## Dashboard stage (`app.py`) -/

/-- A row of the dashboard's loaded dataset (`load_data` in `app.py`):
`deaths` has been coerced to a number and NaN rows dropped, so it is a
plain rational here. -/
structure Record where
  state : String
  year : Int
  month : String
  drug_type : String
  deaths : ℚ
deriving DecidableEq, Repr

/-- The sidebar filter criteria: selected states, inclusive year range
from the slider, selected drug types. -/
structure Criteria where
  states : List String
  yearLo : Int
  yearHi : Int
  drugs : List String
deriving DecidableEq, Repr

/-- The boolean-mask filter of `app.py` lines 88-92: state membership AND
`year.between` (inclusive on both ends) AND drug-type membership. -/
def filteredDf (df : List Record) (c : Criteria) : List Record :=
  df.filter (fun r =>
    c.states.contains r.state &&
      (decide (c.yearLo <= r.year) && decide (r.year <= c.yearHi)) &&
      c.drugs.contains r.drug_type)

/-- Grouping key of the trend aggregation (`app.py` line 107):
`(year, month, state)`. -/
def keyOf (r : Record) : Int × String × String :=
  (r.year, r.month, r.state)

/-- Sum of `deaths` over the rows of `df` having grouping key `k`. -/
def groupSum (df : List Record) (k : Int × String × String) : ℚ :=
  ((df.filter (fun r => decide (keyOf r = k))).map Record.deaths).sum

/-- The trend aggregation of `app.py` lines 105-109: one `(key, summed
deaths)` row per distinct observed grouping key. -/
def trendDf (df : List Record) : List ((Int × String × String) × ℚ) :=
  ((df.map keyOf).dedup).map (fun k => (k, groupSum df k))

/-- The pie-chart aggregation of `app.py` lines 154-158: the FULL loaded
dataset restricted to the selected year range, grouped by `drug_type`
with summed deaths. -/
def pieDf (df : List Record) (yearLo yearHi : Int) : List (String × ℚ) :=
  let yf := df.filter (fun r => decide (yearLo <= r.year) && decide (r.year <= yearHi))
  ((yf.map Record.drug_type).dedup).map
    (fun d => (d, ((yf.filter (fun r => r.drug_type == d)).map Record.deaths).sum))

/-- The pie chart as a function of the sidebar criteria: the source reads
only `selected_years` of the criteria (it uses `df`, not `filtered_df`). -/
def pieChart (df : List Record) (c : Criteria) : List (String × ℚ) :=
  pieDf df c.yearLo c.yearHi

/-! ## Outlier detector (`app.py` lines 173-186) -/

/-- Ascending sort of a list of rationals. -/
def qsort (xs : List ℚ) : List ℚ :=
  xs.insertionSort (fun a b => a <= b)

/-- Linear-interpolation quantile of an already sorted list, the default
method of `Series.quantile` (numpy linear interpolation): with
`h = q*(n-1)`, the result is `s[⌊h⌋] + (h-⌊h⌋)*(s[⌈h⌉]-s[⌊h⌋])`. -/
def quantileOfSorted (q : ℚ) (s : List ℚ) : ℚ :=
  if s = [] then 0
  else
    s.getD (⌊q * ((s.length : ℚ) - 1)⌋.toNat) 0 +
      (q * ((s.length : ℚ) - 1) - ((⌊q * ((s.length : ℚ) - 1)⌋.toNat : ℕ) : ℚ)) *
        (s.getD (⌈q * ((s.length : ℚ) - 1)⌉.toNat) 0 -
          s.getD (⌊q * ((s.length : ℚ) - 1)⌋.toNat) 0)

/-- `Series.quantile(q)` of `app.py` lines 176-177. -/
def quantile (q : ℚ) (xs : List ℚ) : ℚ :=
  quantileOfSorted q (qsort xs)

/-- The fence of `app.py` lines 176-179: `Q3 + 1.5*IQR` with
`IQR = Q3 - Q1`, `Q1 = quantile 0.25`, `Q3 = quantile 0.75`. -/
def upperBound (xs : List ℚ) : ℚ :=
  quantile (3/4) xs + 3/2 * (quantile (3/4) xs - quantile (1/4) xs)

/-- `state_data` of `app.py` line 175: the rows of one state. -/
def stateData (df : List Record) (st : String) : List Record :=
  df.filter (fun r => r.state == st)

/-- `state_outliers` of `app.py` line 180: the state's rows whose deaths
STRICTLY exceed the state's upper fence. -/
def stateOutliers (df : List Record) (st : String) : List Record :=
  let sd := stateData df st
  sd.filter (fun r => decide (upperBound (sd.map Record.deaths) < r.deaths))

/-- The concatenated outlier report of `app.py` lines 173-186, iterating
over the distinct states in first-occurrence order (`Series.unique`). -/
def outlierReport (df : List Record) : List Record :=
  (((df.map Record.state).dedup).map (stateOutliers df)).flatten

/-! ## Helper lemmas -/

/-- Structure of a surviving cleaned row: it came from a fully populated
raw row, its state fails every `us_patterns` entry, and its coerced
deaths value is the successful numeric parse of its deaths text. -/
lemma cleanRow_eq_some {raw : RawRecord} {r : CleanedRecord}
    (h : cleanRow raw = some r) :
    raw.state = some r.state ∧ raw.year = some r.year ∧ raw.month = some r.month ∧
      raw.drug_type = some r.drug_type ∧ raw.deaths = some r.deaths ∧
      usPatternsMatch r.state = false ∧ parseNumeric r.deaths = some r.deathsCoerced := by
  obtain ⟨st, yr, mo, dt, de⟩ := raw
  cases st <;> cases yr <;> cases mo <;> cases dt <;> cases de <;>
    simp only [cleanRow] at h <;> try exact Option.noConfusion h
  rename_i st yr mo dt de
  split_ifs at h with h1 h2 h3
  cases hp : parseNumeric de with
  | none => rw [hp] at h; exact Option.noConfusion h
  | some q =>
      rw [hp] at h
      cases h
      refine ⟨rfl, rfl, rfl, rfl, rfl, ?_, hp⟩
      exact Bool.of_not_eq_true h1

/-! ## Claim theorems -/

/-- C2: the claim states that the cleaning stage's output CSV has exactly
the five columns state, year, month, drug_type, deaths.  The code instead
writes SIX columns: line 50 of `clean_data.py` assigns the coerced values
to a new column `" deaths"` (leading space) instead of overwriting
`deaths`, so the written frame carries the extra column for every input
dataset. -/
theorem c2_columns_bug :
    cleanedColumns = ["state", "year", "month", "drug_type", "deaths", " deaths"] ∧
      cleanedColumns ≠ selectedColumns := by decide

/-- C3 counterexample: a fully populated raw row whose deaths text is the
negative numeral "-5" survives every cleaning step and appears in the
output with coerced deaths value -5 < 0, so the claimed non-negativity
invariant fails. -/
theorem c3_counterexample :
    cleanOutput [⟨some "Ohio", some 2020, some "January", some "Opioids", some "-5"⟩] =
        [⟨"Ohio", 2020, "January", "Opioids", "-5", -5⟩] ∧
      ((-5 : ℚ) < 0) := by decide

/-- C3 amended: every record in the cleaned output has no missing field
(it arises from a raw row with all five fields present) and its deaths
value is numeric — numeric coercion succeeds on it and yields the stored
coerced value; rows failing coercion are dropped.  (The original claim's
non-negativity is not enforced by the code.) -/
theorem c3_amended (raws : List RawRecord) (r : CleanedRecord)
    (hr : r ∈ cleanOutput raws) :
    parseNumeric r.deaths = some r.deathsCoerced ∧
      ∃ raw ∈ raws, raw.state = some r.state ∧ raw.year = some r.year ∧
        raw.month = some r.month ∧ raw.drug_type = some r.drug_type ∧
        raw.deaths = some r.deaths := by
  obtain ⟨raw, hmem, hrow⟩ := List.mem_filterMap.mp hr
  have h := cleanRow_eq_some hrow
  exact ⟨h.2.2.2.2.2.2, raw, hmem, h.1, h.2.1, h.2.2.1, h.2.2.2.1, h.2.2.2.2.1⟩

/-- Witness for `c3_amended` at a concrete cleaned row. -/
theorem c3_witness :
    parseNumeric
        (CleanedRecord.deaths ⟨"Ohio", 2020, "January", "Opioids", "5000", 5000⟩) =
        some 5000 ∧
      ∃ raw ∈ [(⟨some "Ohio", some 2020, some "January", some "Opioids",
          some "5000"⟩ : RawRecord)],
        raw.state = some "Ohio" ∧ raw.year = some 2020 ∧ raw.month = some "January" ∧
          raw.drug_type = some "Opioids" ∧ raw.deaths = some "5000" :=
  c3_amended
    [⟨some "Ohio", some 2020, some "January", some "Opioids", some "5000"⟩]
    ⟨"Ohio", 2020, "January", "Opioids", "5000", 5000⟩ (by decide)

/-- C5: a raw record whose region name matches any of the case-insensitive
aggregate-region patterns is excluded by the cleaner (its `cleanRow` is
`none`); in particular "United States" and bare lowercase "us" match. -/
theorem c5_aggregate_region_excluded :
    (∀ (raw : RawRecord) (st : String), raw.state = some st →
        usPatternsMatch st = true → cleanRow raw = none) ∧
      usPatternsMatch "United States" = true ∧ usPatternsMatch "us" = true := by
  refine ⟨?_, by decide, by decide⟩
  intro raw st hst hmatch
  obtain ⟨st0, yr, mo, dt, de⟩ := raw
  cases hst
  cases yr <;> cases mo <;> cases dt <;> cases de <;> simp [cleanRow, hmatch]

/-- Witness for `c5_aggregate_region_excluded` at the two scenario rows. -/
theorem c5_witness :
    cleanRow ⟨some "United States", some 2020, some "January", some "Opioids",
        some "5000"⟩ = none ∧
      cleanRow ⟨some "us", some 2020, some "January", some "Opioids",
        some "5000"⟩ = none :=
  ⟨c5_aggregate_region_excluded.1 _ "United States" rfl
      c5_aggregate_region_excluded.2.1,
    c5_aggregate_region_excluded.1 _ "us" rfl
      c5_aggregate_region_excluded.2.2⟩

/-- C8: any region name containing the substring "us" (case-insensitive)
matches the pattern list (the bare `us` pattern is a substring search), so
it is excluded; consequently no cleaned record's state contains "us" or
"america", and the legitimate state name "Massachusetts" is excluded
too. -/
theorem c8_us_substring_excluded :
    (∀ st : String, containsL (toLowerL st) "us".toList = true →
        usPatternsMatch st = true) ∧
      (∀ (raws : List RawRecord) (r : CleanedRecord), r ∈ cleanOutput raws →
        containsL (toLowerL r.state) "us".toList = false ∧
          containsL (toLowerL r.state) "america".toList = false) ∧
      usPatternsMatch "Massachusetts" = true := by
  refine ⟨?_, ?_, by decide⟩
  · intro st h
    simp only [usPatternsMatch, Bool.or_eq_true]
    exact Or.inl (Or.inl (Or.inl (Or.inl (Or.inr h))))
  · intro raws r hr
    obtain ⟨raw, _, hrow⟩ := List.mem_filterMap.mp hr
    have h := (cleanRow_eq_some hrow).2.2.2.2.2.1
    simp only [usPatternsMatch, Bool.or_eq_false_iff] at h
    exact ⟨h.1.1.1.1.2, h.1.2⟩

/-- Witness for `c8_us_substring_excluded` at concrete inputs. -/
theorem c8_witness :
    usPatternsMatch "Massachusetts" = true ∧
      containsL (toLowerL (CleanedRecord.state ⟨"Ohio", 2020, "January", "Opioids",
          "5000", 5000⟩)) "us".toList = false :=
  ⟨c8_us_substring_excluded.1 "Massachusetts" (by decide),
    (c8_us_substring_excluded.2.1
      [⟨some "Ohio", some 2020, some "January", some "Opioids", some "5000"⟩]
      ⟨"Ohio", 2020, "January", "Opioids", "5000", 5000⟩ (by decide)).1⟩

/-- C9: the validation warning branch of `clean_data.py` lines 60-62 is
unreachable: every alternative of the validation regex is also one of the
cleaning patterns, so after the aggregate-region filter no remaining row's
state matches the validation regex, for every input dataset. -/
theorem c9_validation_unreachable (raws : List RawRecord) :
    (cleanOutput raws).filter (fun r => matchValidation r.state) = [] := by
  rw [List.filter_eq_nil_iff]
  intro r hr
  obtain ⟨raw, _, hrow⟩ := List.mem_filterMap.mp hr
  have h := (cleanRow_eq_some hrow).2.2.2.2.2.1
  simp only [usPatternsMatch, Bool.or_eq_false_iff] at h
  obtain ⟨⟨⟨⟨⟨h1, h2⟩, h3⟩, h4⟩, h5⟩, h6⟩ := h
  simp only [matchValidation]
  rw [h1, h2, h3, h4, h5]
  decide

/-- C1 counterexample: on the scenario data [10,12,11,13,12,90] the
linear-interpolation quantile used by the code gives Q1 = 11.25, not the
claimed 11, and the fence is 15, not the claimed 15.375. -/
theorem c1_counterexample :
    quantile (1/4) [10, 12, 11, 13, 12, 90] ≠ 11 ∧
      upperBound [10, 12, 11, 13, 12, 90] ≠ 15375/1000 := by decide

/-- C1 amended: on the scenario data the code computes Q1 = 45/4 = 11.25,
Q3 = 51/4 = 12.75, IQR = 3/2 = 1.5 and fence = 15, and the outlier
detector flags exactly the row with deaths = 90 (strict comparison), no
other row. -/
theorem c1_amended :
    quantile (1/4) [10, 12, 11, 13, 12, 90] = 45/4 ∧
      quantile (3/4) [10, 12, 11, 13, 12, 90] = 51/4 ∧
      quantile (3/4) [10, 12, 11, 13, 12, 90] -
          quantile (1/4) [10, 12, 11, 13, 12, 90] = 3/2 ∧
      upperBound [10, 12, 11, 13, 12, 90] = 15 ∧
      stateOutliers
          [⟨"Ohio", 2020, "January", "Opioids", 10⟩,
           ⟨"Ohio", 2020, "February", "Opioids", 12⟩,
           ⟨"Ohio", 2020, "March", "Opioids", 11⟩,
           ⟨"Ohio", 2020, "April", "Opioids", 13⟩,
           ⟨"Ohio", 2020, "May", "Opioids", 12⟩,
           ⟨"Ohio", 2020, "June", "Opioids", 90⟩] "Ohio" =
        [⟨"Ohio", 2020, "June", "Opioids", 90⟩] := by decide

/-- C4 counterexample: replacing the single deaths value 0 by the larger
value 100 in the state data [0,0,100,100,100] strictly DECREASES the
upper fence (from 250 to 100), because the replacement raises Q1 and
shrinks the IQR, so the fence is not monotone. -/
theorem c4_counterexample :
    ((0 : ℚ) ≤ 100) ∧
      upperBound [100, 0, 100, 100, 100] < upperBound [0, 0, 100, 100, 100] := by
  decide

/-- C6: the filter engine returns exactly the records satisfying the
conjunction state ∈ selected states AND year in the inclusive range AND
drug type ∈ selected drugs, and an empty state selection or an empty drug
selection yields zero rows, for every dataset. -/
theorem c6_filter_conjunction :
    (∀ (df : List Record) (c : Criteria) (r : Record),
        r ∈ filteredDf df c ↔
          r ∈ df ∧ r.state ∈ c.states ∧ (c.yearLo ≤ r.year ∧ r.year ≤ c.yearHi) ∧
            r.drug_type ∈ c.drugs) ∧
      (∀ (df : List Record) (yLo yHi : Int) (drugs : List String),
        filteredDf df ⟨[], yLo, yHi, drugs⟩ = []) ∧
      (∀ (df : List Record) (states : List String) (yLo yHi : Int),
        filteredDf df ⟨states, yLo, yHi, []⟩ = []) := by
  refine ⟨?_, ?_, ?_⟩
  · intro df c r
    simp [filteredDf, List.mem_filter, and_assoc]
  · intro df yLo yHi drugs
    simp [filteredDf]
  · intro df states yLo yHi
    simp [filteredDf]

/-- Membership in the trend aggregation: a pair `(k, s)` is a row exactly
when `k` is an observed key and `s` is its group sum. -/
lemma mem_trendDf {df : List Record} {k : Int × String × String} {s : ℚ} :
    (k, s) ∈ trendDf df ↔ k ∈ (df.map keyOf).dedup ∧ s = groupSum df k := by
  constructor
  · intro h
    obtain ⟨a, ha, heq⟩ := List.mem_map.mp h
    obtain ⟨h1, h2⟩ := Prod.mk.injEq .. |>.mp heq
    subst h1
    exact ⟨ha, h2.symm⟩
  · rintro ⟨h1, rfl⟩
    exact List.mem_map.mpr ⟨k, h1, rfl⟩

/-- C7: the trend aggregation (group by (year, month, state), sum deaths)
is invariant under any permutation of the input rows: both orderings
produce the same set of (key, summed deaths) rows. -/
theorem c7_aggregation_perm_invariant (xs ys : List Record)
    (hperm : xs.Perm ys) (k : Int × String × String) (s : ℚ) :
    (k, s) ∈ trendDf xs ↔ (k, s) ∈ trendDf ys := by
  have hg : groupSum xs k = groupSum ys k :=
    ((hperm.filter _).map Record.deaths).sum_eq
  simp only [mem_trendDf, List.mem_dedup, (hperm.map keyOf).mem_iff, hg]

/-- Witness for `c7_aggregation_perm_invariant`: the Scenario-4 rows in
both orders, with key (2021, March, Texas) and summed deaths 150. -/
theorem c7_witness :
    ((2021, "March", "Texas"), (150 : ℚ)) ∈
        trendDf [⟨"Texas", 2021, "March", "Opioids", 100⟩,
          ⟨"Texas", 2021, "March", "Heroin", 50⟩] ↔
      ((2021, "March", "Texas"), (150 : ℚ)) ∈
        trendDf [⟨"Texas", 2021, "March", "Heroin", 50⟩,
          ⟨"Texas", 2021, "March", "Opioids", 100⟩] :=
  c7_aggregation_perm_invariant _ _ (by decide) _ _

/-- C10: the pie-chart aggregation reads only the year range of the
criteria (it is computed from the full loaded dataset, not the filtered
one), so two criteria agreeing on the year range but differing in state
or drug selection give identical pie data. -/
theorem c10_pie_year_only (df : List Record) (c1 c2 : Criteria)
    (hlo : c1.yearLo = c2.yearLo) (hhi : c1.yearHi = c2.yearHi) :
    pieChart df c1 = pieChart df c2 := by
  unfold pieChart
  rw [hlo, hhi]

/-- Witness for `c10_pie_year_only` at concrete criteria differing in
both state and drug selection. -/
theorem c10_witness :
    pieChart [⟨"Ohio", 2020, "January", "Opioids", 10⟩]
        ⟨["Ohio"], 2019, 2021, ["Opioids"]⟩ =
      pieChart [⟨"Ohio", 2020, "January", "Opioids", 10⟩] ⟨[], 2019, 2021, []⟩ :=
  c10_pie_year_only _ _ _ rfl rfl

/-! ## Quantile monotonicity (for C4) -/

/-- Inserting into a sorted list starting at `x ≤ b` dominates the list
pointwise. -/
lemma cons_le_orderedInsert (b : ℚ) :
    ∀ (l : List ℚ) (x : ℚ), List.Sorted (· ≤ ·) (x :: l) → x ≤ b →
      ∀ i, (x :: l).getD i 0 ≤ (List.orderedInsert (· ≤ ·) b l).getD i 0 := by
  intro l
  induction l with
  | nil =>
      intro x _ hxb i
      cases i with
      | zero => simpa using hxb
      | succ j => simp [List.orderedInsert]
  | cons d l' ih =>
      intro x hs hxb i
      by_cases hbd : b ≤ d
      · simp only [List.orderedInsert, if_pos hbd]
        cases i with
        | zero => simpa using hxb
        | succ j => simp
      · simp only [List.orderedInsert, if_neg hbd]
        cases i with
        | zero =>
            have hxd : x ≤ d := (List.sorted_cons.mp hs).1 d (by simp)
            simpa using hxd
        | succ j =>
            exact ih d (List.sorted_cons.mp hs).2 (le_of_not_le hbd) j

/-- Ordered insertion of a larger element into a sorted list dominates the
insertion of a smaller one pointwise. -/
lemma orderedInsert_getD_mono {a b : ℚ} (hab : a ≤ b) :
    ∀ (l : List ℚ), List.Sorted (· ≤ ·) l →
      ∀ i, (List.orderedInsert (· ≤ ·) a l).getD i 0 ≤
        (List.orderedInsert (· ≤ ·) b l).getD i 0 := by
  intro l
  induction l with
  | nil =>
      intro _ i
      cases i with
      | zero => simpa using hab
      | succ j => simp [List.orderedInsert]
  | cons c l' ih =>
      intro hs i
      by_cases hac : a ≤ c
      · simp only [List.orderedInsert, if_pos hac]
        by_cases hbc : b ≤ c
        · simp only [List.orderedInsert, if_pos hbc]
          cases i with
          | zero => simpa using hab
          | succ j => simp
        · simp only [List.orderedInsert, if_neg hbc]
          cases i with
          | zero => simpa using hac
          | succ j => exact cons_le_orderedInsert b l' c hs (le_of_not_le hbc) j
      · have hbc : ¬ b ≤ c := fun h => hac (le_trans hab h)
        simp only [List.orderedInsert, if_neg hac, if_neg hbc]
        cases i with
        | zero => simp
        | succ j => exact ih (List.sorted_cons.mp hs).2 j

/-- Ordered insertion never yields the empty list. -/
lemma orderedInsert_ne_nil (a : ℚ) (l : List ℚ) :
    List.orderedInsert (· ≤ ·) a l ≠ [] := by
  cases l with
  | nil => simp [List.orderedInsert]
  | cons c l' =>
      by_cases hac : a ≤ c
      · simp [List.orderedInsert, if_pos hac]
      · simp [List.orderedInsert, if_neg hac]

/-- Sorting a list with a distinguished element is the ordered insertion
of that element into the sort of the rest. -/
lemma qsort_append (a : ℚ) (l₁ l₂ : List ℚ) :
    qsort (l₁ ++ a :: l₂) = List.orderedInsert (· ≤ ·) a (qsort (l₁ ++ l₂)) := by
  have hperm : List.Perm (qsort (l₁ ++ a :: l₂))
      (List.orderedInsert (· ≤ ·) a (qsort (l₁ ++ l₂))) :=
    ((List.perm_insertionSort _ _).trans
      (List.perm_middle.trans ((List.perm_insertionSort _ _).symm.cons a))).trans
      (List.perm_orderedInsert _ _ _).symm
  have hs1 : List.Sorted (fun x y : ℚ => x ≤ y) (qsort (l₁ ++ a :: l₂)) :=
    List.sorted_insertionSort _ _
  have hs2 : List.Sorted (fun x y : ℚ => x ≤ y)
      (List.orderedInsert (· ≤ ·) a (qsort (l₁ ++ l₂))) :=
    (List.sorted_insertionSort _ _).orderedInsert a _
  exact List.eq_of_perm_of_sorted hperm hs1 hs2

/-- The interpolation formula is monotone under pointwise dominance of
same-length lists, for nonnegative `q`. -/
lemma quantileOfSorted_mono {q : ℚ} (hq0 : 0 ≤ q) {s t : List ℚ}
    (hlen : s.length = t.length) (hne : s ≠ [])
    (hpt : ∀ i, s.getD i 0 ≤ t.getD i 0) :
    quantileOfSorted q s ≤ quantileOfSorted q t := by
  have hne' : t ≠ [] := by
    intro h
    apply hne
    cases s with
    | nil => rfl
    | cons x l => rw [h] at hlen; simp at hlen
  unfold quantileOfSorted
  rw [if_neg hne, if_neg hne', ← hlen]
  have hn1 : (1 : ℚ) ≤ (s.length : ℚ) := by
    have : 1 ≤ s.length := by
      cases s with
      | nil => exact absurd rfl hne
      | cons x l => simp
    exact_mod_cast this
  set h : ℚ := q * ((s.length : ℚ) - 1) with hdef
  have hh0 : 0 ≤ h := mul_nonneg hq0 (by linarith)
  have hfl : ((⌊h⌋.toNat : ℕ) : ℚ) = ((⌊h⌋ : ℤ) : ℚ) := by
    rw [← Int.cast_natCast]
    exact congrArg _ (Int.toNat_of_nonneg (Int.floor_nonneg.mpr hh0))
  have hf0 : 0 ≤ h - ((⌊h⌋.toNat : ℕ) : ℚ) := by
    rw [hfl]
    have := Int.floor_le h
    linarith
  have hf1 : h - ((⌊h⌋.toNat : ℕ) : ℚ) ≤ 1 := by
    rw [hfl]
    have := Int.lt_floor_add_one h
    push_cast at this
    linarith
  have h1 := hpt ⌊h⌋.toNat
  have h2 := hpt ⌈h⌉.toNat
  nlinarith [mul_le_mul_of_nonneg_left h2 hf0,
    mul_le_mul_of_nonneg_left h1
      (by linarith : (0:ℚ) ≤ 1 - (h - ((⌊h⌋.toNat : ℕ) : ℚ)))]

/-- C4 amended: replacing any single deaths value in a state's data with a
larger value keeps each quantile (for 0 ≤ q ≤ 1, hence both Q1 and Q3)
equal or larger; the upper fence itself is NOT monotone (see the
counterexample), because the fence subtracts 1.5·Q1. -/
theorem c4_amended (q a b : ℚ) (l₁ l₂ : List ℚ)
    (hq0 : 0 ≤ q) (hq1 : q ≤ 1) (hab : a ≤ b) :
    quantile q (l₁ ++ a :: l₂) ≤ quantile q (l₁ ++ b :: l₂) := by
  have hq1' : q ≤ 1 := hq1
  unfold quantile
  rw [qsort_append a l₁ l₂, qsort_append b l₁ l₂]
  have hs : List.Sorted (· ≤ ·) (qsort (l₁ ++ l₂)) :=
    List.sorted_insertionSort _ _
  apply quantileOfSorted_mono hq0
  · rw [List.orderedInsert_length, List.orderedInsert_length]
  · exact orderedInsert_ne_nil a _
  · exact orderedInsert_getD_mono hab _ hs

/-- Witness for `c4_amended`: replacing the 0 at the head of the C4
counterexample data by 100 does not decrease Q1. -/
theorem c4_witness :
    quantile (1/4) ([] ++ (0:ℚ) :: [0, 100, 100, 100]) ≤
      quantile (1/4) ([] ++ (100:ℚ) :: [0, 100, 100, 100]) :=
  c4_amended (1/4) 0 100 [] [0, 100, 100, 100] (by norm_num) (by norm_num)
    (by norm_num)
